import Mathlib

/-!
Shallow embedding of the Telemetry repository (src/telemetry_wrapper.py and
src/agents.py) together with proofs settling the frozen claims about it.

Conventions used throughout:
* Python strings are Lean `String`s; Python `len` and slicing count code
  points, matching `String.length` / `String.take`.
* Machine integers do not occur (Python ints are unbounded), so `Nat`/`Int`
  are used directly.
* Fallible Python code is modelled with `Except PyExc`; an uncaught Python
  exception is `.error`, a normal return is `.ok`.
* External effects (HTTP requests, the SerpAPI search, the file system, the
  process environment) are passed in explicitly as values describing the
  behaviour of the outside world for one call.
-/

namespace Telemetry

/-- A Python exception value, reduced to the data the code under test
reads from it: `type(e).__name__` and `str(e)`. -/
structure PyExc where
  ty : String
  msg : String
deriving DecidableEq, Repr

/-- Scalar attribute values set on spans by this code base. -/
inductive AttrVal where
  | s (v : String)
  | i (v : Int)
  | b (v : Bool)
deriving DecidableEq, Repr

/-- A span event (`span.add_event` / `span.record_exception`). -/
structure SpanEvent where
  name : String
  attributes : List (String × AttrVal)
deriving DecidableEq, Repr

/-- OpenTelemetry status codes. -/
inductive StatusCode where
  | UNSET
  | OK
  | ERROR
deriving DecidableEq, Repr

/-- The `.name` of a status code as rendered by the Python SDK. -/
def StatusCode.pyName : StatusCode → String
  | .UNSET => "UNSET"
  | .OK => "OK"
  | .ERROR => "ERROR"

/-- OpenTelemetry span kinds used by this code base. -/
inductive SpanKind where
  | INTERNAL
  | CLIENT
  | CONSUMER
deriving DecidableEq, Repr

/-- The `.name` of a span kind as rendered by the Python SDK. -/
def SpanKind.pyName : SpanKind → String
  | .INTERNAL => "INTERNAL"
  | .CLIENT => "CLIENT"
  | .CONSUMER => "CONSUMER"

/-- The observable state of one span as produced by
`tracer.start_as_current_span(...)`: name, kind, the attributes set on it in
order, its events, its final status and whether it was ended.  The SDK ends
the span on every exit of the `with` block, and (by the SDK defaults
`record_exception=True, set_status_on_exception=True`) records a propagating
exception and sets status ERROR when the block is exited by an exception. -/
structure SpanRec where
  name : String
  kind : SpanKind
  attributes : List (String × AttrVal)
  events : List SpanEvent
  status : StatusCode
  ended : Bool
deriving DecidableEq, Repr

/-- Python's conditional-capping idiom `s[:n] + '...' if len(s) > n else s`,
used by the wrapper (n = 1000), the search tool (n = 500 and 100). -/
def pyCap (s : String) (n : Nat) : String :=
  if s.length > n then s.take n ++ "..." else s

/-- Python truthiness of an optional string (`if not x`): `None` and the
empty string are falsy. -/
def pyTruthyOptStr : Option String → Bool
  | none => false
  | some s => s ≠ ""

/-- Whether `pat` is a prefix of `l` (character-wise). -/
def charPrefixEq : List Char → List Char → Bool
  | [], _ => true
  | _ :: _, [] => false
  | p :: ps, c :: cs => p == c && charPrefixEq ps cs

/-- Whether `pat` occurs contiguously inside `l`. -/
def charInfixAux (pat : List Char) : List Char → Bool
  | [] => charPrefixEq pat []
  | c :: cs => charPrefixEq pat (c :: cs) || charInfixAux pat cs

/-- Python's substring test `pat in s`. -/
def strContains (s pat : String) : Bool :=
  charInfixAux pat.data s.data

/-- Python's `s.startswith(pat)` (code-point-wise prefix test). -/
def pyStartsWith (s pat : String) : Bool :=
  charPrefixEq pat.data s.data

/-! ### Decimal / hexadecimal rendering (Python `format(n, '032x')` etc.)

Digits are extracted with an explicit fuel argument so that every function
reduces in the kernel; fuel `n` is always sufficient because `n / b < n`
for `n > 0`, `b ≥ 2`. -/

/-- Least-significant-first digits of `n` in base `b`, fuel-bounded. -/
def digitsFuel (b : Nat) : Nat → Nat → List Nat
  | 0, _ => []
  | f + 1, n => if n = 0 then [] else n % b :: digitsFuel b f (n / b)

/-- Least-significant-first digits of `n` in base `b` (empty for `n = 0`). -/
def natDigitsLE (b n : Nat) : List Nat := digitsFuel b n n

/-- Decimal digit character (for digit values below 10). -/
def digitChar10 (d : Nat) : Char := Char.ofNat (48 + d)

/-- Lowercase hexadecimal digit character (for digit values below 16),
matching Python's `'x'` format type. -/
def hexChar (d : Nat) : Char :=
  if d < 10 then Char.ofNat (48 + d) else Char.ofNat (87 + d)

/-- Zero-pad a most-significant-first digit list on the left to width `w`. -/
def padDigits (w : Nat) (ds : List Char) : List Char :=
  List.replicate (w - ds.length) '0' ++ ds

/-- Python `'%0*d' % (w, n)` — decimal, zero-padded to at least width `w`. -/
def padNum (w n : Nat) : String :=
  ⟨padDigits w ((natDigitsLE 10 n).reverse.map digitChar10)⟩

/-- Python `format(n, '0wx')` — lowercase hex, zero-padded to at least
width `w`. -/
def padHex (w n : Nat) : String :=
  ⟨padDigits w ((natDigitsLE 16 n).reverse.map hexChar)⟩

/-- Lowercase-hexadecimal character class. -/
def isLowerHexDigit (c : Char) : Bool :=
  c.isDigit || ('a' ≤ c && c ≤ 'f')

/-! ### The proleptic Gregorian calendar, as used by
`datetime.datetime.fromtimestamp(..., tz=datetime.timezone.utc)`.

The year loop walks forward from the epoch year 1970; the fuel argument is
instantiated with the day count itself, which always suffices because each
iteration consumes at least 365 days. -/

/-- Gregorian leap-year test. -/
def isLeapYear (y : Nat) : Bool :=
  (y % 4 == 0 && y % 100 != 0) || y % 400 == 0

/-- Number of days in year `y`. -/
def daysInYear (y : Nat) : Nat := if isLeapYear y then 366 else 365

/-- Walk years forward from `y`, consuming whole years out of `d` days;
returns the final year and the remaining day-of-year (0-based). -/
def yearFromDays : Nat → Nat → Nat → Nat × Nat
  | 0, y, d => (y, d)
  | f + 1, y, d =>
    if daysInYear y ≤ d then yearFromDays f (y + 1) (d - daysInYear y)
    else (y, d)

/-- Month lengths, January first. -/
def monthLengths (leap : Bool) : List Nat :=
  [31, if leap then 29 else 28, 31, 30, 31, 30, 31, 31, 30, 31, 30, 31]

/-- Number of days in month `m` (1-based) of a (non-)leap year. -/
def daysInMonth (leap : Bool) (m : Nat) : Nat :=
  (monthLengths leap).getD (m - 1) 31

/-- One step of the month walk: consume month `p.1` out of the remaining
day-of-year `p.2` if it fits and we are not yet in December. -/
def monthStep (leap : Bool) (p : Nat × Nat) : Nat × Nat :=
  if p.1 < 12 && daysInMonth leap p.1 ≤ p.2 then
    (p.1 + 1, p.2 - daysInMonth leap p.1)
  else p

/-- Month (1-based) and day-of-month (0-based) from a day-of-year: the
at-most-eleven iterations of the month walk, unrolled. -/
def monthFromDoy (leap : Bool) (doy : Nat) : Nat × Nat :=
  monthStep leap (monthStep leap (monthStep leap (monthStep leap
    (monthStep leap (monthStep leap (monthStep leap (monthStep leap
      (monthStep leap (monthStep leap (monthStep leap (1, doy)))))))))))

/-- Date part `YYYY-MM-DD` for a (0-based) day count since 1970-01-01. -/
def dateString (days : Nat) : String :=
  let yd := yearFromDays days 1970 days
  let md := monthFromDoy (isLeapYear yd.1) yd.2
  padNum 4 yd.1 ++ "-" ++ padNum 2 md.1 ++ "-" ++ padNum 2 (md.2 + 1)

/-- Time part `HH:MM:SS` for a second-of-day. -/
def timeString (sod : Nat) : String :=
  padNum 2 (sod / 3600) ++ ":" ++ padNum 2 (sod / 60 % 60) ++ ":" ++
    padNum 2 (sod % 60)

/-- Microseconds corresponding to a nanosecond timestamp.  The Python code
computes `datetime.datetime.fromtimestamp(timestamp_ns / 1e9, tz=utc)`,
i.e. it divides by 1e9 in binary floating point and `fromtimestamp` rounds
the result to whole microseconds; this is modelled as exact rounding of
`ns / 1000` to the nearest integer.  (For timestamps large enough that the
double has less than sub-microsecond resolution the float path can differ
from exact rounding by a few hundred nanoseconds; none of the properties
proved below depend on the exact microsecond value, only on its range.) -/
def nsToMicros (ns : Nat) : Nat := (ns + 500) / 1000

/-- Model of `FileSpanExporter._format_timestamp`: Python
`datetime.datetime.fromtimestamp(timestamp_ns / 1e9, tz=datetime.timezone.utc)
  .isoformat().replace('+00:00', 'Z')`.
`isoformat()` renders `YYYY-MM-DDTHH:MM:SS[.ffffff]+00:00`, omitting the
fractional part exactly when the microsecond component is zero; the
`replace` turns the fixed `+00:00` suffix into `Z` (no other occurrence of
`+00:00` can appear in the rendered date/time). -/
def formatTimestamp (ts_ns : Nat) : String :=
  let micros := nsToMicros ts_ns
  let usec := micros % 1000000
  dateString (micros / 1000000 / 86400) ++ "T" ++
    timeString (micros / 1000000 % 86400) ++
    (if usec = 0 then "" else "." ++ padNum 6 usec) ++ "Z"

/-! ### Timestamp shape predicates (used to state claim C8). -/

/-- Character-wise shape check: `'N'` in the shape matches any decimal
digit, every other shape character matches itself, lengths must agree. -/
def shapeOk : List Char → List Char → Bool
  | [], [] => true
  | p :: ps, c :: cs => (if p = 'N' then c.isDigit else p == c) && shapeOk ps cs
  | _, _ => false

/-- Shape test on strings. -/
def matchesShape (shape s : String) : Bool := shapeOk shape.data s.data

/-- The timestamp shape asserted by the specification:
`YYYY-MM-DDTHH:MM:SS.ssssssZ`. -/
def isoMicroShape : String := "NNNN-NN-NNTNN:NN:NN.NNNNNNZ"

/-- The shape actually produced when the microsecond component is zero:
`YYYY-MM-DDTHH:MM:SSZ`. -/
def isoPlainShape : String := "NNNN-NN-NNTNN:NN:NNZ"

/-- The format actually produced by `_format_timestamp`: the full
microsecond shape when the microsecond component is nonzero, the plain
shape without a fractional part when it is zero. -/
def tsFormatOk (ns : Nat) (s : String) : Bool :=
  if nsToMicros ns % 1000000 = 0 then matchesShape isoPlainShape s
  else matchesShape isoMicroShape s

/-! ### FileSpanExporter (src/telemetry_wrapper.py, lines 13-58) -/

/-- An event of a finished SDK span handed to `export`. -/
structure SpanDataEvent where
  name : String
  timestamp : Nat
  attributes : List (String × AttrVal)
deriving DecidableEq, Repr

/-- A finished SDK span as the exporter reads it: `span_data.name`,
`span_data.context.trace_id` / `.span_id` (128/64-bit integers),
`span_data.parent.span_id` when a parent context exists, start/end times in
integer nanoseconds, attributes, events, status, kind, the resource
attribute mapping (`none` when the guard
`span_data.resource and hasattr(...) and isinstance(..., dict)` fails) and
the instrumentation scope triple (`none` when it is not an
`InstrumentationScope`, in which case the exporter emits `{}`). -/
structure SpanData where
  name : String
  trace_id : Nat
  span_id : Nat
  parent_span_id : Option Nat
  start_time : Nat
  end_time : Nat
  attributes : List (String × AttrVal)
  events : List SpanDataEvent
  status : StatusCode
  status_description : Option String
  kind : SpanKind
  resource : Option (List (String × AttrVal))
  scope : Option (String × Option String × Option String)
deriving DecidableEq, Repr

/-- A serialized event record. -/
structure EventJson where
  name : String
  timestamp : String
  attributes : List (String × AttrVal)
deriving DecidableEq, Repr

/-- The per-span dictionary built by `FileSpanExporter.export`, field for
field. -/
structure SpanJson where
  name : String
  trace_id : String
  span_id : String
  parent_id : Option String
  start_time : String
  end_time : String
  duration_ns : Int
  attributes : List (String × AttrVal)
  events : List EventJson
  status_code : String
  status_description : Option String
  kind : String
  resource : List (String × AttrVal)
  scope : Option (String × Option String × Option String)
deriving DecidableEq, Repr

/-- The span dictionary constructed inside the loop of
`FileSpanExporter.export` (src/telemetry_wrapper.py, lines 20-47):
`format(trace_id, '032x')`, `format(span_id, '016x')`, the parent's span id
or `None`, `_format_timestamp` on start/end, `end_time - start_time`,
attributes, serialized events, `status.status_code.name` with description,
`kind.name`, the resource mapping (or `{}`) and the instrumentation scope
triple (or `{}`). -/
def serializeSpan (sd : SpanData) : SpanJson where
  name := sd.name
  trace_id := padHex 32 sd.trace_id
  span_id := padHex 16 sd.span_id
  parent_id := sd.parent_span_id.map (padHex 16)
  start_time := formatTimestamp sd.start_time
  end_time := formatTimestamp sd.end_time
  duration_ns := (sd.end_time : Int) - (sd.start_time : Int)
  attributes := sd.attributes
  events := sd.events.map fun ev =>
    { name := ev.name, timestamp := formatTimestamp ev.timestamp,
      attributes := ev.attributes }
  status_code := sd.status.pyName
  status_description := sd.status_description
  kind := sd.kind.pyName
  resource := sd.resource.getD []
  scope := sd.scope

/-- JSON string escaping as performed by `json.dump` (backslash, quote and
control characters). -/
def jsonEscapeChar (c : Char) : String :=
  if c = '\\' then "\\\\"
  else if c = '"' then "\\\""
  else if c = '\n' then "\\n"
  else if c = '\t' then "\\t"
  else if c = '\r' then "\\r"
  else if c.toNat < 32 then "\\u00" ++ padHex 2 c.toNat
  else String.singleton c

/-- Escape a whole string. -/
def jsonEscape (s : String) : String :=
  s.data.foldl (fun acc c => acc ++ jsonEscapeChar c) ""

/-- A JSON string literal. -/
def jsonStr (s : String) : String := "\"" ++ jsonEscape s ++ "\""

/-- Render an attribute value. -/
def jsonAttr : AttrVal → String
  | .s v => jsonStr v
  | .i v => toString v
  | .b v => if v then "true" else "false"

/-- Render a string-keyed attribute mapping as a JSON object. -/
def jsonPairs (ps : List (String × AttrVal)) : String :=
  "\x7b" ++ String.intercalate ", "
    (ps.map fun p => jsonStr p.1 ++ ": " ++ jsonAttr p.2) ++ "\x7d"

/-- Render an optional string (`null` for `None`). -/
def jsonOptStr : Option String → String
  | none => "null"
  | some s => jsonStr s

/-- Render one serialized event. -/
def jsonEvent (ev : EventJson) : String :=
  "\x7b" ++ jsonStr "name" ++ ": " ++ jsonStr ev.name ++ ", " ++
    jsonStr "timestamp" ++ ": " ++ jsonStr ev.timestamp ++ ", " ++
    jsonStr "attributes" ++ ": " ++ jsonPairs ev.attributes ++ "\x7d"

/-- Render the instrumentation-scope field (`{}` when absent). -/
def jsonScope : Option (String × Option String × Option String) → String
  | none => "\x7b\x7d"
  | some sc =>
    "\x7b" ++ jsonStr "name" ++ ": " ++ jsonStr sc.1 ++ ", " ++
      jsonStr "version" ++ ": " ++ jsonOptStr sc.2.1 ++ ", " ++
      jsonStr "schema_url" ++ ": " ++ jsonOptStr sc.2.2 ++ "\x7d"

/-- Render one span record as a JSON object, fields in the order the
exporter builds its dictionary. -/
def jsonSpan (j : SpanJson) : String :=
  "\x7b" ++ String.intercalate ", "
    [jsonStr "name" ++ ": " ++ jsonStr j.name,
     jsonStr "trace_id" ++ ": " ++ jsonStr j.trace_id,
     jsonStr "span_id" ++ ": " ++ jsonStr j.span_id,
     jsonStr "parent_id" ++ ": " ++ jsonOptStr j.parent_id,
     jsonStr "start_time" ++ ": " ++ jsonStr j.start_time,
     jsonStr "end_time" ++ ": " ++ jsonStr j.end_time,
     jsonStr "duration_ns" ++ ": " ++ toString j.duration_ns,
     jsonStr "attributes" ++ ": " ++ jsonPairs j.attributes,
     jsonStr "events" ++ ": " ++
       "[" ++ String.intercalate ", " (j.events.map jsonEvent) ++ "]",
     jsonStr "status" ++ ": " ++
       "\x7b" ++ jsonStr "status_code" ++ ": " ++ jsonStr j.status_code ++
         ", " ++ jsonStr "description" ++ ": " ++
         jsonOptStr j.status_description ++ "\x7d",
     jsonStr "kind" ++ ": " ++ jsonStr j.kind,
     jsonStr "resource" ++ ": " ++ jsonPairs j.resource,
     jsonStr "instrumentation_scope" ++ ": " ++ jsonScope j.scope] ++ "\x7d"

/-- Model of `json.dump(self.spans, f, indent=2)`.  An empty list
serializes to exactly `"[]"`; a nonempty list is rendered as a JSON array
of the span objects (the `indent=2` pretty-printing whitespace inside
nonempty arrays is modelled structurally, one object per line — no claim
inspects the nonempty rendering byte for byte). -/
def jsonDumpSpans (spans : List SpanJson) : String :=
  if spans.isEmpty then "[]"
  else "[\n" ++ String.intercalate ",\n" (spans.map jsonSpan) ++ "\n]"

/-- A file system, mapping paths to contents. -/
def FileSystem := List (String × String)

/-- Overwrite (`open(path, 'w')` followed by a full write). -/
def fsWrite (fs : FileSystem) (path content : String) : FileSystem :=
  (path, content) :: (fs.filter fun pc => pc.1 != path)

/-- Read a file's contents, if present. -/
def fsRead (fs : FileSystem) (path : String) : Option String :=
  (fs.find? fun pc => pc.1 == path).map (·.2)

/-- `FileSpanExporter`'s own state: the configured path and the in-memory
buffer of already-serialized span dictionaries. -/
structure FileSpanExporter where
  file_path : String
  spans : List SpanJson
deriving DecidableEq, Repr

/-- `FileSpanExporter.__init__`. -/
def FileSpanExporter.init (path : String) : FileSpanExporter :=
  { file_path := path, spans := [] }

/-- `FileSpanExporter.export`: serialize each span of the batch, append the
dictionaries to the buffer, return success. -/
def FileSpanExporter.export (e : FileSpanExporter) (batch : List SpanData) :
    FileSpanExporter × Bool :=
  ({ e with spans := e.spans ++ batch.map serializeSpan }, true)

/-- `FileSpanExporter.shutdown`: dump the whole buffer as one JSON document
to the configured path (truncating write), then clear the buffer.  The
model's file system write always succeeds, matching the claim's scope (the
double-shutdown property is about buffer handling, not I/O faults). -/
def FileSpanExporter.shutdown (e : FileSpanExporter) (fs : FileSystem) :
    FileSpanExporter × FileSystem :=
  ({ e with spans := [] }, fsWrite fs e.file_path (jsonDumpSpans e.spans))

/-! ### Tool functions (src/agents.py) -/

/-- The process environment variables the tools consult. -/
structure EnvMap where
  WEATHER_API_APIKEY : Option String
  SERP_API_KEY : Option String
deriving DecidableEq, Repr

/-- Behaviour of the single `requests.get` call of `weather_tool` for one
invocation: a parsed success (the strings/number the code reads out of the
response JSON), a `requests.exceptions.RequestException` (which also covers
`raise_for_status`), or any other `Exception` (bad JSON, missing keys, …).
`temp` is the Python `str()` rendering of `data["current"]["temp_c"]` as it
is interpolated into the f-string; `tempAttr` is the raw attribute value. -/
inductive WeatherNet where
  | success (temp : String) (tempAttr : AttrVal) (condition : String)
  | requestExc (e : PyExc)
  | otherExc (e : PyExc)
deriving DecidableEq, Repr

/-- Result of one `weather_tool` call: the returned string, whether the
HTTP request was issued, and the span as closed by the `with` block. -/
structure WeatherRun where
  ret : String
  networkCalled : Bool
  span : SpanRec
deriving DecidableEq, Repr

/-- The degree sign as it appears (mojibake-encoded) in the source file's
f-string `"... temperature of {temp}Â°C."`. -/
def degreeSuffix : String := "Â°C."

/-- Model of `weather_tool` (src/agents.py, lines 14-52).  The environment
is passed in to state environment-(in)dependence claims; note that the
lookup `os.getenv("WEATHER_API_APIKEY")` is commented out in the source and
`config_key` is bound to a hardcoded non-empty literal, so the
missing-credential guard `if not config_key` can never fire and the
function reads nothing from the environment.  Every branch returns a
string: the two `except` clauses catch `requests.exceptions.RequestException`
and `Exception` respectively, so no exception escapes (`Except.error` is
never produced). -/
def weather_tool (city : String) (env : EnvMap) (net : WeatherNet) :
    Except PyExc WeatherRun :=
  let baseAttrs := [("weather.city", AttrVal.s city)]
  -- config_key = os.getenv("WEATHER_API_APIKEY")   (commented out in source)
  let config_key := "45408d486ba24acb91c44416253004"
  if config_key = "" then
    -- dead branch: config_key is a non-empty literal
    .ok { ret := "Error: WEATHER_API_APIKEY not set", networkCalled := false,
          span := { name := "tool.weather_tool", kind := .CLIENT,
                    attributes := baseAttrs ++
                      [("otel.status_code", AttrVal.s "ERROR"),
                       ("error.message", AttrVal.s "WEATHER_API_APIKEY not set")],
                    events := [], status := .UNSET, ended := true } }
  else
    match net with
    | .success temp tempAttr condition =>
      let result := "The current weather in " ++ city ++ " is " ++ condition ++
        " with a temperature of " ++ temp ++ degreeSuffix
      .ok { ret := result, networkCalled := true,
            span := { name := "tool.weather_tool", kind := .CLIENT,
                      attributes := baseAttrs ++
                        [("otel.status_code", AttrVal.s "OK"),
                         ("weather.temperature_c", tempAttr),
                         ("weather.condition", AttrVal.s condition),
                         ("tool.output", AttrVal.s result)],
                      events := [], status := .UNSET, ended := true } }
    | .requestExc e =>
      let error_msg := "Weather tool request error: " ++ e.msg
      .ok { ret := error_msg, networkCalled := true,
            span := { name := "tool.weather_tool", kind := .CLIENT,
                      attributes := baseAttrs ++
                        [("otel.status_code", AttrVal.s "ERROR"),
                         ("exception.type", AttrVal.s e.ty),
                         ("error.message", AttrVal.s error_msg)],
                      events := [{ name := "exception",
                                   attributes := [("exception.type", AttrVal.s e.ty),
                                                  ("exception.message", AttrVal.s e.msg)] }],
                      status := .UNSET, ended := true } }
    | .otherExc e =>
      let error_msg := "Weather tool error: " ++ e.msg
      .ok { ret := error_msg, networkCalled := true,
            span := { name := "tool.weather_tool", kind := .CLIENT,
                      attributes := baseAttrs ++
                        [("otel.status_code", AttrVal.s "ERROR"),
                         ("exception.type", AttrVal.s e.ty),
                         ("error.message", AttrVal.s error_msg)],
                      events := [{ name := "exception",
                                   attributes := [("exception.type", AttrVal.s e.ty),
                                                  ("exception.message", AttrVal.s e.msg)] }],
                      status := .UNSET, ended := true } }

/-- One organic result dictionary of a SerpAPI response, with the three
optional keys `web_search` reads (`r.get("title", ...)` etc.). -/
structure OrganicResult where
  title : Option String
  snippet : Option String
  link : Option String
deriving DecidableEq, Repr

/-- Behaviour of the offloaded `search.get_dict()` call for one invocation:
a response dictionary (from which the code reads
`results.get("organic_results", [])`, so an absent key is the empty list),
or any raised `Exception`. -/
inductive SearchNet where
  | ok (organic_results : List OrganicResult)
  | exc (e : PyExc)
deriving DecidableEq, Repr

/-- Result of one `web_search` call. -/
structure SearchRun where
  ret : String
  networkCalled : Bool
  span : SpanRec
deriving DecidableEq, Repr

/-- The header line `f"Search results for '{query}':\n"`. -/
def searchHeader (query : String) : String :=
  "Search results for \x27" ++ query ++ "\x27:\n"

/-- One numbered line of the search summary,
`f"{i}. {title}: {snippet}\n"` with the defaults of the source. -/
def searchEntryLine (i : Nat) (r : OrganicResult) : String :=
  let title := r.title.getD "No Title"
  let snippet := r.snippet.getD ""
  toString i ++ ". " ++ title ++ ": " ++ snippet ++ "\n"

/-- Consecutive numbering starting at `i`, as produced by Python's
`enumerate(..., i)`. -/
def numberEntries (i : Nat) : List OrganicResult → List String
  | [] => []
  | r :: rs => searchEntryLine i r :: numberEntries (i + 1) rs

/-- The numbered lines built by the loop
`for i, r in enumerate(organic_results[:params["num"]], 1)` with
`params["num"] = 3`. -/
def searchEntries (organic : List OrganicResult) : List String :=
  numberEntries 1 (organic.take 3)

/-- The `result_{i}` span event for one enumerated result (snippet capped
via `snippet[:100] + '...' if len(snippet) > 100 else snippet`). -/
def searchEventOf (i : Nat) (r : OrganicResult) : SpanEvent :=
  let title := r.title.getD "No Title"
  let snippet := r.snippet.getD ""
  let link := r.link.getD "No Link"
  { name := "result_" ++ toString i,
    attributes := [("title", AttrVal.s title),
                   ("snippet", AttrVal.s (pyCap snippet 100)),
                   ("link", AttrVal.s link)] }

/-- The events added by the same loop, numbered from 1. -/
def numberEvents (i : Nat) : List OrganicResult → List SpanEvent
  | [] => []
  | r :: rs => searchEventOf i r :: numberEvents (i + 1) rs

/-- The `result_{i}` span events added by the enumeration loop. -/
def searchEvents (organic : List OrganicResult) : List SpanEvent :=
  numberEvents 1 (organic.take 3)

/-- Model of `web_search` (src/agents.py, lines 54-105).  The credential
check `if not serp_api_key` fires for an absent or empty `SERP_API_KEY`
and returns before any request is made; otherwise the blocking
`search.get_dict()` call runs in an executor, and its result (or any raised
`Exception`, caught by the blanket `except`) determines the returned
string.  No exception escapes. -/
def web_search (query : String) (env : EnvMap) (net : SearchNet) :
    Except PyExc SearchRun :=
  let baseAttrs := [("search.query", AttrVal.s query)]
  if pyTruthyOptStr env.SERP_API_KEY = false then
    let error_msg := "Error: SERP_API_KEY not configured."
    .ok { ret := error_msg, networkCalled := false,
          span := { name := "tool.web_search", kind := .CLIENT,
                    attributes := baseAttrs ++
                      [("otel.status_code", AttrVal.s "ERROR"),
                       ("error.message", AttrVal.s error_msg)],
                    events := [], status := .UNSET, ended := true } }
  else
    match net with
    | .exc e =>
      let error_msg := "Web search error: " ++ e.msg
      .ok { ret := error_msg, networkCalled := true,
            span := { name := "tool.web_search", kind := .CLIENT,
                      attributes := baseAttrs ++
                        [("otel.status_code", AttrVal.s "ERROR"),
                         ("exception.type", AttrVal.s e.ty),
                         ("exception.message", AttrVal.s error_msg)],
                      events := [{ name := "exception",
                                   attributes := [("exception.type", AttrVal.s e.ty),
                                                  ("exception.message", AttrVal.s e.msg)] }],
                      status := .UNSET, ended := true } }
    | .ok organic =>
      if organic.isEmpty then
        let output := "No results found."
        .ok { ret := output, networkCalled := true,
              span := { name := "tool.web_search", kind := .CLIENT,
                        attributes := baseAttrs ++
                          [("search.results_count", AttrVal.i 0),
                           ("otel.status_code", AttrVal.s "OK"),
                           ("tool.output_summary", AttrVal.s (pyCap output 500))],
                        events := [], status := .UNSET, ended := true } }
      else
        let output := searchHeader query ++ String.join (searchEntries organic)
        .ok { ret := output, networkCalled := true,
              span := { name := "tool.web_search", kind := .CLIENT,
                        attributes := baseAttrs ++
                          [("search.results_count", AttrVal.i organic.length),
                           ("otel.status_code", AttrVal.s "OK"),
                           ("tool.output_summary", AttrVal.s (pyCap output 500))],
                        events := searchEvents organic,
                        status := .UNSET, ended := true } }

/-! ### Interception wrapper (src/telemetry_wrapper.py, lines 73-193) -/

/-- `get_agent_role` (src/telemetry_wrapper.py, lines 73-81). -/
def get_agent_role (agent_name : String) : String :=
  if agent_name = "PlanningAgent" then "orchestrator"
  else if agent_name = "WeatherAgent" ∨ agent_name = "WebSearchAgent" then "executor"
  else "unknown"

/-- A message as the wrapper inspects it: either a dictionary (with an
optional string under `'content'`) or some non-dictionary object. -/
inductive PyMsg where
  | dict (content : Option String)
  | nondict
deriving DecidableEq, Repr

/-- The `sender` argument: `getattr(sender, 'name', str(sender))` needs its
optional `name` attribute and its `str()` rendering. -/
structure SenderObj where
  sname : Option String
  srepr : String
deriving DecidableEq, Repr

/-- `latest_message.get('content', '')` after
`latest_message = messages[-1] if messages and isinstance(messages[-1], dict) else {}`. -/
def latestContent (messages : List PyMsg) : String :=
  match messages.getLast? with
  | some (PyMsg.dict c) => c.getD ""
  | _ => ""

/-- The message-type heuristic (src/telemetry_wrapper.py, lines 110-118).
The initial value `"unknown"` is immediately overwritten by the
if/elif/else chain, whose final `else` leaves no fifth outcome. -/
def messageTypeOf (content : String) (messages : List PyMsg) : String :=
  if strContains content "tool_code" then "tool_code"
  else if strContains content "tool_response" then "tool_response"
  else if !messages.isEmpty && messages.length == 1 then "initial_request"
  else "plain_text"

/-- `getattr(sender, 'name', str(sender) if sender else 'Unknown')`:
`None` has no `name` attribute, so it yields `'Unknown'`; otherwise the
`name` attribute if present, else `str(sender)`. -/
def senderNameOf : Option SenderObj → String
  | none => "Unknown"
  | some s => s.sname.getD s.srepr

/-- Token-usage counters of `result.get('usage', {})` when that value is a
dictionary. -/
structure UsageDict where
  prompt_tokens : Option Int
  completion_tokens : Option Int
  total_tokens : Option Int
deriving DecidableEq, Repr

/-- The `tool_calls` value when it is a list: its length and the
`json.dumps` rendering the wrapper truncates into the fallback output. -/
structure ToolCalls where
  count : Nat
  dump : String
deriving DecidableEq, Repr

/-- A dictionary result of the delegated call, restricted to the keys the
wrapper reads.  `usage = none` covers both an absent `'usage'` key (the
default `{}` has no counters) and a non-dictionary value (skipped by the
`isinstance` check) — the two behave identically. -/
structure DictRes where
  content : Option String
  usage : Option UsageDict
  tool_calls : Option ToolCalls
deriving DecidableEq, Repr

/-- The delegated operation's return value, by the shapes the wrapper
distinguishes: a string, a dictionary, a list of messages, `None`, or
anything else. -/
inductive ResVal where
  | vstr (s : String)
  | vdict (d : DictRes)
  | vlist (l : List PyMsg)
  | vnone
  | vother
deriving DecidableEq, Repr

/-- `result is None`. -/
def ResVal.isPyNone : ResVal → Bool
  | .vnone => true
  | _ => false

/-- An attribute list for an optional counter (set only when present). -/
def optTokenAttr (key : String) : Option Int → List (String × AttrVal)
  | none => []
  | some v => [(key, AttrVal.i v)]

/-- The success-path extraction (src/telemetry_wrapper.py, lines 131-173):
returns the attributes it sets (in source order), the extracted
`output_content` and the `token_usage` marker.  In the dictionary case the
fallback `if not output_content` is Python truthiness, so an empty-string
content is also replaced by the tool-call summary
`f"Tool calls: {json.dumps(tool_calls)[:500]}..."` (note the
unconditional ellipsis). -/
def extractOutput : ResVal →
    List (String × AttrVal) × Option String × Option Int
  | .vstr s => ([], some s, none)
  | .vdict d =>
    let usageAttrs :=
      match d.usage with
      | some u =>
        optTokenAttr "token.usage.prompt" u.prompt_tokens ++
        optTokenAttr "token.usage.completion" u.completion_tokens ++
        optTokenAttr "token.usage.total" u.total_tokens
      | none => []
    let token_usage := match d.usage with
      | some u => u.total_tokens
      | none => none
    match d.tool_calls with
    | some tc =>
      let oc :=
        if pyTruthyOptStr d.content then d.content
        else some ("Tool calls: " ++ tc.dump.take 500 ++ "...")
      (usageAttrs ++ [("tool_calls_count", AttrVal.i tc.count)], oc, token_usage)
    | none => (usageAttrs, d.content, token_usage)
  | .vlist l =>
    match l.getLast? with
    | some (PyMsg.dict c) =>
      ([("messages.returned_count", AttrVal.i l.length)], c, none)
    | _ => ([], none, none)
  | .vnone => ([], none, none)
  | .vother => ([], none, none)

/-- The status value the success path writes into the `otel.status_code`
attribute (src/telemetry_wrapper.py, lines 177-182): every branch of the
if/elif/else writes `"OK"`. -/
def successStatusAttr (token_usage : Option Int) (r : ResVal) : String :=
  if token_usage.isSome then "OK"
  else if r.isPyNone = false then "OK"
  else "OK"

/-- The event `span.record_exception(e)` appends (the SDK stores the
exception's type and message; the stack trace, irrelevant to every claim,
is omitted). -/
def excEvent (e : PyExc) : SpanEvent :=
  { name := "exception",
    attributes := [("exception.type", AttrVal.s e.ty),
                   ("exception.message", AttrVal.s e.msg)] }

/-- Outcome of one invocation of the instrumented operation: the value
returned to (or exception re-raised at) the caller, and the span as closed
by the `with` block. -/
structure WMOutcome where
  result : Except PyExc ResVal
  span : SpanRec
deriving Repr

/-- Model of one invocation of `wrapped_method`
(src/telemetry_wrapper.py, lines 91-191).  `agentName` is
`getattr(agent, 'name', type(agent).__name__)`; `sender` and `messages`
are the values of the keyword-or-positional extraction of lines 93-94;
`original` is the behaviour of `await original_method(*args, **kwargs)`
for this invocation.  On success the extraction attributes, capped output
content and `otel.status_code = "OK"` are appended and the result returned;
on an exception the wrapper appends the ERROR status attribute, the
exception type/message attributes and `record_exception`, then re-raises —
whereupon the `with start_as_current_span(...)` block (SDK defaults
`record_exception=True, set_status_on_exception=True`) records the
exception once more, sets the span status to ERROR and ends the span
before the exception propagates.  The `setattr` on line 193 of the source
sits after this `with` block inside `wrapped_method` and is unreachable:
every path of the block either returns or raises. -/
def wrapped_method (agentName : String) (sender : Option SenderObj)
    (messages : List PyMsg) (original : Except PyExc ResVal) : WMOutcome :=
  let content := latestContent messages
  let baseAttrs :=
    [("messaging.operation", AttrVal.s "process"),
     ("messaging.destination", AttrVal.s agentName),
     ("ai.agent.name", AttrVal.s agentName),
     ("ai.agent.role", AttrVal.s (get_agent_role agentName)),
     ("messaging.message.type", AttrVal.s (messageTypeOf content messages)),
     ("message.input.content", AttrVal.s (pyCap content 1000)),
     ("messaging.sender.name", AttrVal.s (senderNameOf sender))]
  let spanName := "messaging.process " ++ agentName
  match original with
  | .ok r =>
    let ext := extractOutput r
    let outAttrs :=
      match ext.2.1 with
      | some c => [("message.output.content", AttrVal.s (pyCap c 1000))]
      | none => []
    { result := .ok r,
      span := { name := spanName, kind := .CONSUMER,
                attributes := baseAttrs ++ ext.1 ++ outAttrs ++
                  [("otel.status_code", AttrVal.s (successStatusAttr ext.2.2 r))],
                events := [], status := .UNSET, ended := true } }
  | .error e =>
    { result := .error e,
      span := { name := spanName, kind := .CONSUMER,
                attributes := baseAttrs ++
                  [("otel.status_code", AttrVal.s "ERROR"),
                   ("exception.type", AttrVal.s e.ty),
                   ("exception.message", AttrVal.s e.msg)],
                events := [excEvent e, excEvent e],
                status := .ERROR, ended := true } }

/-- The state of an agent object as far as `wrap_agent_with_telemetry`
inspects or could mutate it: its class name, its `name` attribute, whether
it has an `on_messages` attribute, whether that attribute is a coroutine
function, and which method object is currently bound to `on_messages`
(`0` = the original; a `setattr` would bump it). -/
structure AgentObj where
  type_name : String
  name : String
  has_on_messages : Bool
  on_messages_is_coroutine : Bool
  on_messages_version : Nat
deriving DecidableEq, Repr

/-- The `TypeError` message of the precondition failure
(src/telemetry_wrapper.py, line 87). -/
def unsupportedMsg (tn : String) : String :=
  "Object " ++ tn ++
    " does not have an async \x27on_messages\x27 method and cannot be wrapped."

/-- Model of `wrap_agent_with_telemetry` (src/telemetry_wrapper.py,
lines 83-193): the first component is the call's outcome (`.error` = the
`TypeError` raised at wrap time), the second the agent's state afterwards.
When the precondition holds, the function merely defines the local
`wrapped_method` closure and falls off its own end: the
`setattr(agent, method_name, wrapped_method)` on line 193 is indented into
the body of `wrapped_method` itself, after a `with` block every path of
which returns or raises, so it executes neither at wrap time nor at call
time — the agent is returned unmodified on both paths. -/
def wrap_agent_with_telemetry (agent : AgentObj) :
    Except String Unit × AgentObj :=
  if agent.has_on_messages && agent.on_messages_is_coroutine then
    (.ok (), agent)
  else
    (.error (unsupportedMsg agent.type_name), agent)

/-! ## Theorems -/

/-- If the pattern occurs in the right part of an appended character list,
it occurs in the whole. -/
lemma charInfixAux_append_right (pat l₁ : List Char) :
    ∀ l₂ : List Char, charInfixAux pat l₂ = true →
      charInfixAux pat (l₁ ++ l₂) = true := by
  induction l₁ with
  | nil => intro l₂ h; simpa using h
  | cons c cs ih =>
    intro l₂ h
    simp only [List.cons_append, charInfixAux, Bool.or_eq_true]
    exact Or.inr (ih l₂ h)

/-- `strContains` holds for any string with the given suffix when the
pattern occurs in that suffix. -/
lemma strContains_append_of_right (pre suf pat : String)
    (h : charInfixAux pat.data suf.data = true) :
    strContains (pre ++ suf) pat = true := by
  unfold strContains
  rw [String.data_append]
  exact charInfixAux_append_right _ _ _ h

/-- C1. The specification says a successful `wrap_agent_with_telemetry`
call replaces the agent's `on_messages` in place with the instrumented
version.  The code does not: the `setattr(agent, method_name,
wrapped_method)` statement (src/telemetry_wrapper.py, line 193) is indented
into the body of `wrapped_method` itself, after a `with` block every path
of which returns or raises, so it is dead code; `wrap_agent_with_telemetry`
returns having mutated nothing.  Evaluated at a concrete agent exposing an
asynchronous `on_messages` (method object version 0 = the original): the
call succeeds yet the agent still carries the original method. -/
theorem wrap_agent_with_telemetry_leaves_agent_unchanged :
    wrap_agent_with_telemetry
        { type_name := "AssistantAgent", name := "PlanningAgent",
          has_on_messages := true, on_messages_is_coroutine := true,
          on_messages_version := 0 } =
      (Except.ok (),
        { type_name := "AssistantAgent", name := "PlanningAgent",
          has_on_messages := true, on_messages_is_coroutine := true,
          on_messages_version := 0 }) := by
  rfl

/-- C2. The specification says a missing weather credential yields a
string starting `"Error:"` and no network call.  In the code the
environment lookup is commented out and `config_key` is a hardcoded
non-empty literal, so with `WEATHER_API_APIKEY` absent from the
environment `weather_tool("London")` still issues the HTTP request, and
(here, under a request timeout) returns `"Weather tool request error:
timeout"`, which does not start with `"Error:"`. -/
theorem weather_tool_missing_credential_divergence :
    (weather_tool "London" { WEATHER_API_APIKEY := none, SERP_API_KEY := none }
        (WeatherNet.requestExc { ty := "ConnectTimeout", msg := "timeout" })).map
      (fun r => (r.networkCalled, pyStartsWith r.ret "Error:", r.ret)) =
    Except.ok (true, false, "Weather tool request error: timeout") := by
  rfl

/-- C3. The return value (and the whole observable run) of `weather_tool`
is independent of the `WEATHER_API_APIKEY` environment variable: for every
city and every behaviour of the external call, two environments that agree
on everything else (here: on `SERP_API_KEY`) but may differ arbitrarily on
`WEATHER_API_APIKEY` — set, unset or different — produce identical
results, because the credential used for the request is the hardcoded
constant and the environment is never read. -/
theorem weather_tool_env_noninterference (city : String) (net : WeatherNet)
    (e₁ e₂ : EnvMap) (h : e₁.SERP_API_KEY = e₂.SERP_API_KEY) :
    weather_tool city e₁ net = weather_tool city e₂ net := by
  rfl

/-- Witness for C3 at concrete inputs: the two environments differ exactly
in `WEATHER_API_APIKEY` (one set, one unset) and the runs coincide. -/
theorem weather_tool_env_noninterference_witness :
    weather_tool "London"
        { WEATHER_API_APIKEY := some "k1", SERP_API_KEY := some "s" }
        (WeatherNet.success "21.0" (AttrVal.i 21) "Sunny") =
      weather_tool "London"
        { WEATHER_API_APIKEY := none, SERP_API_KEY := some "s" }
        (WeatherNet.success "21.0" (AttrVal.i 21) "Sunny") :=
  weather_tool_env_noninterference "London"
    (WeatherNet.success "21.0" (AttrVal.i 21) "Sunny") _ _ rfl

/-- C5. An object lacking `on_messages`, or whose `on_messages` is not a
coroutine function, makes `wrap_agent_with_telemetry` raise the
`TypeError` synchronously at wrap time; the message names the missing
`on_messages` capability, and the object is left unmodified. -/
theorem wrap_agent_with_telemetry_rejects_unsupported (agent : AgentObj)
    (h : agent.has_on_messages = false ∨ agent.on_messages_is_coroutine = false) :
    wrap_agent_with_telemetry agent =
        (Except.error (unsupportedMsg agent.type_name), agent) ∧
      strContains (unsupportedMsg agent.type_name) "on_messages" = true := by
  constructor
  · unfold wrap_agent_with_telemetry
    rcases h with h | h <;> simp [h]
  · unfold unsupportedMsg
    rw [String.append_assoc]
    apply strContains_append_of_right
    rw [String.data_append]
    apply charInfixAux_append_right
    decide

/-- Witness for C5: a concrete object (class name `dict`) without the
asynchronous operation is rejected with the capability-naming message and
survives unmodified. -/
theorem wrap_agent_with_telemetry_rejects_unsupported_witness :
    wrap_agent_with_telemetry
          { type_name := "dict", name := "d", has_on_messages := false,
            on_messages_is_coroutine := false, on_messages_version := 0 } =
        (Except.error (unsupportedMsg "dict"),
          { type_name := "dict", name := "d", has_on_messages := false,
            on_messages_is_coroutine := false, on_messages_version := 0 }) ∧
      strContains (unsupportedMsg "dict") "on_messages" = true :=
  wrap_agent_with_telemetry_rejects_unsupported _ (Or.inl rfl)

/-- C10. For every input and every behaviour of the external call —
success, network error, malformed response or any other exception (the
`except Exception` blanket) — `weather_tool` and `web_search` each return
normally with a string and never let an exception escape their own
boundary. -/
theorem tools_never_raise (city query : String) (env : EnvMap)
    (wnet : WeatherNet) (snet : SearchNet) :
    (weather_tool city env wnet).isOk = true ∧
      (web_search query env snet).isOk = true := by
  constructor
  · cases wnet <;> rfl
  · cases h : pyTruthyOptStr env.SERP_API_KEY with
    | false => unfold web_search; rw [h]; rfl
    | true =>
      unfold web_search; rw [h]
      cases snet with
      | exc e => rfl
      | ok organic => cases organic <;> rfl

/-- Reading back a freshly written file yields the written contents. -/
lemma fsRead_fsWrite (fs : FileSystem) (p c : String) :
    fsRead (fsWrite fs p c) p = some c := by
  simp [fsRead, fsWrite, List.find?]

/-- C6. With an empty buffer, `FileSpanExporter.shutdown` writes a file
containing exactly the empty JSON array `[]`; two consecutive shutdowns
with no intervening export do not fail (the model's shutdown is total) and
leave the file containing `[]` after the second call; and every shutdown
clears the in-memory buffer. -/
theorem fileSpanExporter_shutdown_empty (e : FileSpanExporter) (fs : FileSystem) :
    (e.spans = [] → fsRead (e.shutdown fs).2 e.file_path = some "[]") ∧
      (fsRead ((e.shutdown fs).1.shutdown (e.shutdown fs).2).2 e.file_path =
          some "[]" ∧
        ((e.shutdown fs).1.shutdown (e.shutdown fs).2).1.spans = []) ∧
      (e.shutdown fs).1.spans = [] := by
  refine ⟨fun h => ?_, ⟨?_, rfl⟩, rfl⟩
  · simp [FileSpanExporter.shutdown, h, jsonDumpSpans, fsRead_fsWrite]
  · simp [FileSpanExporter.shutdown, jsonDumpSpans, fsRead_fsWrite]

/-- Witness for C6 at a concrete exporter (fresh, empty buffer) and an
empty file system. -/
theorem fileSpanExporter_shutdown_empty_witness :
    ((FileSpanExporter.init "telemetry_output.json").spans = [] →
        fsRead ((FileSpanExporter.init "telemetry_output.json").shutdown []).2
          (FileSpanExporter.init "telemetry_output.json").file_path = some "[]") ∧
      (fsRead (((FileSpanExporter.init "telemetry_output.json").shutdown []).1.shutdown
            ((FileSpanExporter.init "telemetry_output.json").shutdown []).2).2
          (FileSpanExporter.init "telemetry_output.json").file_path = some "[]" ∧
        (((FileSpanExporter.init "telemetry_output.json").shutdown []).1.shutdown
            ((FileSpanExporter.init "telemetry_output.json").shutdown []).2).1.spans = []) ∧
      ((FileSpanExporter.init "telemetry_output.json").shutdown []).1.spans = [] :=
  fileSpanExporter_shutdown_empty (FileSpanExporter.init "telemetry_output.json") []

/-- A character-list prefix stays a prefix of any right extension. -/
lemma charPrefixEq_append_self : ∀ p rest : List Char,
    charPrefixEq p (p ++ rest) = true := by
  intro p rest
  induction p with
  | nil => rfl
  | cons c cs ih => simp [charPrefixEq, ih]

/-- Prefix tests are stable under prepending the same characters. -/
lemma charPrefixEq_append_both : ∀ a p l : List Char,
    charPrefixEq p l = true → charPrefixEq (a ++ p) (a ++ l) = true := by
  intro a p l h
  induction a with
  | nil => simpa using h
  | cons c cs ih => simp [charPrefixEq, ih]

/-- Every rendered search line starts with its 1-based number followed by
`". "`. -/
lemma searchEntryLine_numbered (i : Nat) (r : OrganicResult) :
    pyStartsWith (searchEntryLine i r) (toString i ++ ". ") = true := by
  unfold pyStartsWith searchEntryLine
  simp only [String.data_append, List.append_assoc]
  exact charPrefixEq_append_both _ _ _ (charPrefixEq_append_self _ _)

/-- Numbering preserves length. -/
lemma numberEntries_length : ∀ (i : Nat) (l : List OrganicResult),
    (numberEntries i l).length = l.length := by
  intro i l
  induction l generalizing i with
  | nil => rfl
  | cons r rs ih => simp [numberEntries, ih]

/-- The k-th numbered entry is the k-th result rendered with number
`i + k`. -/
lemma numberEntries_get? : ∀ (i : Nat) (l : List OrganicResult) (k : Nat),
    (numberEntries i l).get? k = (l.get? k).map (fun r => searchEntryLine (i + k) r) := by
  intro i l
  induction l generalizing i with
  | nil => intro k; simp [numberEntries]
  | cons r rs ih =>
    intro k
    cases k with
    | zero => simp [numberEntries]
    | succ k =>
      simp only [numberEntries, List.get?_cons_succ, ih (i + 1) k]
      have : i + 1 + k = i + (k + 1) := by omega
      rw [this]

/-- C7. With a usable search credential: a response with zero organic
results makes `web_search` return exactly `"No results found."`; a
response with results makes it return the header plus the numbered lines
produced from the top-3 slice, so the number of numbered entries is
`min 3 (number of organic results)` — exactly 3 for a 3-result response,
and capped at 3 for any larger response — and the k-th entry (0-based) is
the k-th result rendered with number `k + 1`, a line starting
`"{k+1}. "`. -/
theorem web_search_result_formatting (query : String) (env : EnvMap)
    (key : String) (hkey : env.SERP_API_KEY = some key) (hne : key ≠ "") :
    ((web_search query env (SearchNet.ok [])).map (fun r => r.ret) =
        Except.ok "No results found.") ∧
      (∀ organic : List OrganicResult, organic ≠ [] →
        (web_search query env (SearchNet.ok organic)).map (fun r => r.ret) =
          Except.ok (searchHeader query ++ String.join (searchEntries organic))) ∧
      (∀ organic : List OrganicResult,
        (searchEntries organic).length = min 3 organic.length) ∧
      (∀ (organic : List OrganicResult) (k : Nat),
        (searchEntries organic).get? k =
          ((organic.take 3).get? k).map (fun r => searchEntryLine (k + 1) r)) ∧
      (∀ (i : Nat) (r : OrganicResult),
        pyStartsWith (searchEntryLine i r) (toString i ++ ". ") = true) := by
  have ht : pyTruthyOptStr env.SERP_API_KEY = true := by
    simp [pyTruthyOptStr, hkey, hne]
  refine ⟨?_, ?_, ?_, ?_, ?_⟩
  · unfold web_search; rw [ht]; rfl
  · intro organic hne2
    cases organic with
    | nil => exact absurd rfl hne2
    | cons r rs => unfold web_search; rw [ht]; rfl
  · intro organic
    simp [searchEntries, numberEntries_length, List.length_take]
  · intro organic k
    rw [searchEntries, numberEntries_get?]
    have : 1 + k = k + 1 := by omega
    rw [this]
  · exact searchEntryLine_numbered

/-- Witness for C7: a concrete environment holding a search key, with the
conclusion instantiated. -/
theorem web_search_result_formatting_witness :
    ((web_search "president of USA"
          { WEATHER_API_APIKEY := none, SERP_API_KEY := some "sk" }
          (SearchNet.ok [])).map (fun r => r.ret) =
        Except.ok "No results found.") ∧
      (∀ organic : List OrganicResult, organic ≠ [] →
        (web_search "president of USA"
            { WEATHER_API_APIKEY := none, SERP_API_KEY := some "sk" }
            (SearchNet.ok organic)).map (fun r => r.ret) =
          Except.ok (searchHeader "president of USA" ++
            String.join (searchEntries organic))) ∧
      (∀ organic : List OrganicResult,
        (searchEntries organic).length = min 3 organic.length) ∧
      (∀ (organic : List OrganicResult) (k : Nat),
        (searchEntries organic).get? k =
          ((organic.take 3).get? k).map (fun r => searchEntryLine (k + 1) r)) ∧
      (∀ (i : Nat) (r : OrganicResult),
        pyStartsWith (searchEntryLine i r) (toString i ++ ". ") = true) :=
  web_search_result_formatting "president of USA"
    { WEATHER_API_APIKEY := none, SERP_API_KEY := some "sk" } "sk" rfl
    (by decide)

/-- C4. When the delegated original operation raises, the instrumented
operation records the exception's type and message as span attributes,
records the exception on the span (as an `exception` event), leaves the
span with status ERROR and ended (the `with` block's scoped closure), and
re-raises the very same exception value unchanged to the caller. -/
theorem wrapped_method_exception_path (agentName : String)
    (sender : Option SenderObj) (messages : List PyMsg) (e : PyExc) :
    (wrapped_method agentName sender messages (Except.error e)).result =
        Except.error e ∧
      ("exception.type", AttrVal.s e.ty) ∈
        (wrapped_method agentName sender messages (Except.error e)).span.attributes ∧
      ("exception.message", AttrVal.s e.msg) ∈
        (wrapped_method agentName sender messages (Except.error e)).span.attributes ∧
      ("otel.status_code", AttrVal.s "ERROR") ∈
        (wrapped_method agentName sender messages (Except.error e)).span.attributes ∧
      excEvent e ∈
        (wrapped_method agentName sender messages (Except.error e)).span.events ∧
      (wrapped_method agentName sender messages (Except.error e)).span.status =
        StatusCode.ERROR ∧
      (wrapped_method agentName sender messages (Except.error e)).span.ended =
        true := by
  refine ⟨rfl, ?_, ?_, ?_, ?_, rfl, rfl⟩ <;> simp [wrapped_method]

/-- C9. On every invocation of the instrumented operation, the
`messaging.message.type` attribute recorded on the span is the value of
the four-way classification over the latest message's content, in priority
order: the tool-invocation marker `"tool_code"` wins, then the
tool-response marker `"tool_response"`, then a message list of length
exactly one gives `"initial_request"`, and otherwise `"plain_text"` — so
the recorded type is always one of these four values. -/
theorem wrapped_method_message_type (agentName : String)
    (sender : Option SenderObj) (messages : List PyMsg)
    (original : Except PyExc ResVal) :
    (("messaging.message.type",
        AttrVal.s (messageTypeOf (latestContent messages) messages)) ∈
      (wrapped_method agentName sender messages original).span.attributes) ∧
      (strContains (latestContent messages) "tool_code" = true →
        messageTypeOf (latestContent messages) messages = "tool_code") ∧
      (strContains (latestContent messages) "tool_code" = false →
        strContains (latestContent messages) "tool_response" = true →
        messageTypeOf (latestContent messages) messages = "tool_response") ∧
      (strContains (latestContent messages) "tool_code" = false →
        strContains (latestContent messages) "tool_response" = false →
        messages.length = 1 →
        messageTypeOf (latestContent messages) messages = "initial_request") ∧
      (strContains (latestContent messages) "tool_code" = false →
        strContains (latestContent messages) "tool_response" = false →
        messages.length ≠ 1 →
        messageTypeOf (latestContent messages) messages = "plain_text") ∧
      (messageTypeOf (latestContent messages) messages = "tool_code" ∨
        messageTypeOf (latestContent messages) messages = "tool_response" ∨
        messageTypeOf (latestContent messages) messages = "initial_request" ∨
        messageTypeOf (latestContent messages) messages = "plain_text") := by
  refine ⟨?_, ?_, ?_, ?_, ?_, ?_⟩
  · cases original <;> simp [wrapped_method]
  · intro h1; simp [messageTypeOf, h1]
  · intro h1 h2; simp [messageTypeOf, h1, h2]
  · intro h1 h2 h3
    cases messages with
    | nil => simp at h3
    | cons m ms => simp [messageTypeOf, h1, h2, h3]
  · intro h1 h2 h3
    simp [messageTypeOf, h1, h2, h3]
  · unfold messageTypeOf
    split_ifs <;> simp

/-- Witness for C9 at a concrete invocation: a single dictionary message
whose content carries no marker (the `initial_request` branch). -/
theorem wrapped_method_message_type_witness :
    (("messaging.message.type",
        AttrVal.s (messageTypeOf (latestContent [PyMsg.dict (some "hello")])
          [PyMsg.dict (some "hello")])) ∈
      (wrapped_method "WeatherAgent" none [PyMsg.dict (some "hello")]
        (Except.ok ResVal.vnone)).span.attributes) ∧
      (strContains (latestContent [PyMsg.dict (some "hello")]) "tool_code" = true →
        messageTypeOf (latestContent [PyMsg.dict (some "hello")])
          [PyMsg.dict (some "hello")] = "tool_code") ∧
      (strContains (latestContent [PyMsg.dict (some "hello")]) "tool_code" = false →
        strContains (latestContent [PyMsg.dict (some "hello")]) "tool_response" = true →
        messageTypeOf (latestContent [PyMsg.dict (some "hello")])
          [PyMsg.dict (some "hello")] = "tool_response") ∧
      (strContains (latestContent [PyMsg.dict (some "hello")]) "tool_code" = false →
        strContains (latestContent [PyMsg.dict (some "hello")]) "tool_response" = false →
        ([PyMsg.dict (some "hello")] : List PyMsg).length = 1 →
        messageTypeOf (latestContent [PyMsg.dict (some "hello")])
          [PyMsg.dict (some "hello")] = "initial_request") ∧
      (strContains (latestContent [PyMsg.dict (some "hello")]) "tool_code" = false →
        strContains (latestContent [PyMsg.dict (some "hello")]) "tool_response" = false →
        ([PyMsg.dict (some "hello")] : List PyMsg).length ≠ 1 →
        messageTypeOf (latestContent [PyMsg.dict (some "hello")])
          [PyMsg.dict (some "hello")] = "plain_text") ∧
      (messageTypeOf (latestContent [PyMsg.dict (some "hello")])
          [PyMsg.dict (some "hello")] = "tool_code" ∨
        messageTypeOf (latestContent [PyMsg.dict (some "hello")])
          [PyMsg.dict (some "hello")] = "tool_response" ∨
        messageTypeOf (latestContent [PyMsg.dict (some "hello")])
          [PyMsg.dict (some "hello")] = "initial_request" ∨
        messageTypeOf (latestContent [PyMsg.dict (some "hello")])
          [PyMsg.dict (some "hello")] = "plain_text") :=
  wrapped_method_message_type "WeatherAgent" none [PyMsg.dict (some "hello")]
    (Except.ok ResVal.vnone)

/-- Every digit produced by `digitsFuel` is below the base. -/
lemma digitsFuel_mem_lt (b : Nat) (hb : 2 ≤ b) :
    ∀ (f n d : Nat), d ∈ digitsFuel b f n → d < b := by
  intro f
  induction f with
  | zero => intro n d hd; simp [digitsFuel] at hd
  | succ f ih =>
    intro n d hd
    by_cases hn : n = 0
    · simp [digitsFuel, hn] at hd
    · simp only [digitsFuel, if_neg hn, List.mem_cons] at hd
      rcases hd with h | h
      · exact h ▸ Nat.mod_lt _ (by omega)
      · exact ih _ _ h

/-- `digitsFuel` produces at most `k` digits for numbers below `b ^ k`. -/
lemma digitsFuel_length_le (b : Nat) (hb : 2 ≤ b) :
    ∀ (f n k : Nat), n ≤ f → n < b ^ k → (digitsFuel b f n).length ≤ k := by
  intro f
  induction f with
  | zero => intro n k _ _; simp [digitsFuel]
  | succ f ih =>
    intro n k hnf hnk
    by_cases hn : n = 0
    · simp [digitsFuel, hn]
    · cases k with
      | zero => simp at hnk; omega
      | succ k =>
        have hdiv_lt : n / b < n := Nat.div_lt_self (by omega) (by omega)
        have h1 : n / b ≤ f := by omega
        have h2 : n / b < b ^ k := by
          rw [Nat.div_lt_iff_lt_mul (by omega : 0 < b)]
          calc n < b ^ (k + 1) := hnk
            _ = b ^ k * b := by rw [Nat.pow_succ]
        simp only [digitsFuel, if_neg hn, List.length_cons]
        exact Nat.succ_le_succ (ih _ _ h1 h2)

/-- Padding to width `w` yields exactly `w` characters when the digit list
fits. -/
lemma padDigits_length (w : Nat) (ds : List Char) (h : ds.length ≤ w) :
    (padDigits w ds).length = w := by
  simp [padDigits]
  omega

/-- The decimal rendering of `n < 10 ^ w`, zero-padded to width `w`, has
exactly `w` characters. -/
lemma padNum_length (w n : Nat) (h : n < 10 ^ w) :
    (padNum w n).data.length = w := by
  apply padDigits_length
  simp only [List.length_map, List.length_reverse]
  exact digitsFuel_length_le 10 (by omega) n n w (le_refl n) h

/-- Decimal digit characters are digits. -/
lemma digitChar10_isDigit : ∀ d, d < 10 → (digitChar10 d).isDigit = true := by
  decide

/-- Every character of a padded decimal rendering is a digit. -/
lemma padNum_isDigit (w n : Nat) :
    ∀ c ∈ (padNum w n).data, c.isDigit = true := by
  intro c hc
  simp only [padNum, padDigits, List.mem_append, List.mem_replicate,
    List.mem_map, List.mem_reverse] at hc
  rcases hc with ⟨_, rfl⟩ | ⟨d, hd, rfl⟩
  · decide
  · exact digitChar10_isDigit d (digitsFuel_mem_lt 10 (by omega) n n d hd)

/-- The hex rendering of `n < 16 ^ w`, zero-padded to width `w`, has
exactly `w` characters. -/
lemma padHex_length (w n : Nat) (h : n < 16 ^ w) :
    (padHex w n).data.length = w := by
  apply padDigits_length
  simp only [List.length_map, List.length_reverse]
  exact digitsFuel_length_le 16 (by omega) n n w (le_refl n) h

/-- Hexadecimal digit characters are lowercase hex. -/
lemma hexChar_isLowerHex : ∀ d, d < 16 → isLowerHexDigit (hexChar d) = true := by
  decide

/-- Every character of a padded hex rendering is lowercase hex. -/
lemma padHex_isLowerHex (w n : Nat) :
    ∀ c ∈ (padHex w n).data, isLowerHexDigit c = true := by
  intro c hc
  simp only [padHex, padDigits, List.mem_append, List.mem_replicate,
    List.mem_map, List.mem_reverse] at hc
  rcases hc with ⟨_, rfl⟩ | ⟨d, hd, rfl⟩
  · decide
  · exact hexChar_isLowerHex d (digitsFuel_mem_lt 16 (by omega) n n d hd)

/-- Shape checks compose across appends. -/
lemma shapeOk_append {p₁ c₁ p₂ c₂ : List Char} (h1 : shapeOk p₁ c₁ = true)
    (h2 : shapeOk p₂ c₂ = true) : shapeOk (p₁ ++ p₂) (c₁ ++ c₂) = true := by
  induction p₁ generalizing c₁ with
  | nil => cases c₁ with
    | nil => simpa using h2
    | cons c cs => simp [shapeOk] at h1
  | cons p ps ih =>
    cases c₁ with
    | nil => simp [shapeOk] at h1
    | cons c cs =>
      simp only [shapeOk, Bool.and_eq_true] at h1
      simp only [List.cons_append, shapeOk, Bool.and_eq_true]
      exact ⟨h1.1, ih h1.2⟩

/-- A run of digit characters of the right length matches a run of `'N'`
placeholders. -/
lemma shapeOk_digit_run : ∀ (n : Nat) (cs : List Char), cs.length = n →
    (∀ c ∈ cs, c.isDigit = true) → shapeOk (List.replicate n 'N') cs = true := by
  intro n
  induction n with
  | zero => intro cs h _; rw [List.length_eq_zero] at h; subst h; rfl
  | succ n ih =>
    intro cs h hd
    cases cs with
    | nil => simp at h
    | cons c cs' =>
      simp only [List.replicate, shapeOk, if_pos rfl, Bool.and_eq_true]
      refine ⟨hd c (List.mem_cons_self c cs'), ?_⟩
      exact ih cs' (by simpa using h) (fun x hx => hd x (List.mem_cons_of_mem c hx))

/-- Each year has at least 365 and at most 366 days. -/
lemma daysInYear_bounds (y : Nat) : 365 ≤ daysInYear y ∧ daysInYear y ≤ 366 := by
  unfold daysInYear; split <;> omega

/-- With sufficient fuel, the year walk terminates with a day-of-year
below the length of the year it lands in. -/
lemma yearFromDays_doy : ∀ (f y d : Nat), d ≤ f →
    (yearFromDays f y d).2 < daysInYear (yearFromDays f y d).1 := by
  intro f
  induction f with
  | zero =>
    intro y d hd
    have : d = 0 := by omega
    subst this
    simpa [yearFromDays] using (daysInYear_bounds y).1.trans_lt' (by omega)
  | succ f ih =>
    intro y d hd
    by_cases h : daysInYear y ≤ d
    · have h365 := (daysInYear_bounds y).1
      simp only [yearFromDays, if_pos h]
      exact ih (y + 1) (d - daysInYear y) (by omega)
    · simp only [yearFromDays, if_neg h]
      omega

/-- The year found by the year walk is bounded linearly by the day count. -/
lemma yearFromDays_year_le : ∀ (f y d : Nat),
    (yearFromDays f y d).1 * 365 ≤ y * 365 + d := by
  intro f
  induction f with
  | zero => intro y d; simp [yearFromDays]
  | succ f ih =>
    intro y d
    by_cases h : daysInYear y ≤ d
    · have h365 := (daysInYear_bounds y).1
      simp only [yearFromDays, if_pos h]
      calc (yearFromDays f (y + 1) (d - daysInYear y)).1 * 365
          ≤ (y + 1) * 365 + (d - daysInYear y) := ih (y + 1) (d - daysInYear y)
        _ ≤ y * 365 + d := by omega
    · simp only [yearFromDays, if_neg h]
      omega

set_option maxRecDepth 4000 in
/-- For every day-of-year below 366 (and either leap flag), the month walk
lands on a month of at most 12 and a 0-based day of at most 31. -/
lemma monthFromDoy_bounds : ∀ doy : Nat, doy < 366 →
    ((monthFromDoy true doy).1 ≤ 12 ∧ (monthFromDoy true doy).2 ≤ 31) ∧
      ((monthFromDoy false doy).1 ≤ 12 ∧ (monthFromDoy false doy).2 ≤ 31) := by
  decide

/-- Shape of a `YYYY-MM-DD` assembly from bounded components. -/
lemma dateString_shape_gen (y m d : Nat) (hy : y < 10000) (hm : m < 100)
    (hd : d < 100) :
    shapeOk ("NNNN-NN-NN".data)
      ((padNum 4 y ++ "-" ++ padNum 2 m ++ "-" ++ padNum 2 d).data) = true := by
  have e : ("NNNN-NN-NN".data) =
      (((List.replicate 4 'N' ++ "-".data) ++ List.replicate 2 'N') ++ "-".data) ++
        List.replicate 2 'N' := by decide
  rw [e, String.data_append, String.data_append, String.data_append,
    String.data_append]
  refine shapeOk_append (shapeOk_append (shapeOk_append (shapeOk_append
    ?_ (by decide)) ?_) (by decide)) ?_
  · exact shapeOk_digit_run 4 _ (padNum_length 4 y (by norm_num; omega))
      (padNum_isDigit 4 y)
  · exact shapeOk_digit_run 2 _ (padNum_length 2 m (by norm_num; omega))
      (padNum_isDigit 2 m)
  · exact shapeOk_digit_run 2 _ (padNum_length 2 d (by norm_num; omega))
      (padNum_isDigit 2 d)

/-- Shape of an `HH:MM:SS` assembly from bounded components. -/
lemma timeString_shape_gen (a b c : Nat) (ha : a < 100) (hb : b < 100)
    (hc : c < 100) :
    shapeOk ("NN:NN:NN".data)
      ((padNum 2 a ++ ":" ++ padNum 2 b ++ ":" ++ padNum 2 c).data) = true := by
  have e : ("NN:NN:NN".data) =
      (((List.replicate 2 'N' ++ ":".data) ++ List.replicate 2 'N') ++ ":".data) ++
        List.replicate 2 'N' := by decide
  rw [e, String.data_append, String.data_append, String.data_append,
    String.data_append]
  refine shapeOk_append (shapeOk_append (shapeOk_append (shapeOk_append
    ?_ (by decide)) ?_) (by decide)) ?_
  · exact shapeOk_digit_run 2 _ (padNum_length 2 a (by norm_num; omega))
      (padNum_isDigit 2 a)
  · exact shapeOk_digit_run 2 _ (padNum_length 2 b (by norm_num; omega))
      (padNum_isDigit 2 b)
  · exact shapeOk_digit_run 2 _ (padNum_length 2 c (by norm_num; omega))
      (padNum_isDigit 2 c)

/-- The rendered date matches `YYYY-MM-DD` for every day count reachable
from a sub-2^63-nanosecond timestamp. -/
lemma dateString_shape (days : Nat) (h : days ≤ 106751) :
    shapeOk ("NNNN-NN-NN".data) (dateString days).data = true := by
  have hdoy : (yearFromDays days 1970 days).2 <
      daysInYear (yearFromDays days 1970 days).1 :=
    yearFromDays_doy days 1970 days (le_refl days)
  have hy365 : (yearFromDays days 1970 days).1 * 365 ≤ 1970 * 365 + days :=
    yearFromDays_year_le days 1970 days
  have hy : (yearFromDays days 1970 days).1 < 10000 := by omega
  have hdoy366 : (yearFromDays days 1970 days).2 < 366 := by
    have := (daysInYear_bounds (yearFromDays days 1970 days).1).2
    omega
  have hmb := monthFromDoy_bounds (yearFromDays days 1970 days).2 hdoy366
  have hm : (monthFromDoy (isLeapYear (yearFromDays days 1970 days).1)
      (yearFromDays days 1970 days).2).1 < 100 := by
    cases hL : isLeapYear (yearFromDays days 1970 days).1
    · rw [hL] at *; have := hmb.2.1; omega
    · rw [hL] at *; have := hmb.1.1; omega
  have hd : (monthFromDoy (isLeapYear (yearFromDays days 1970 days).1)
      (yearFromDays days 1970 days).2).2 + 1 < 100 := by
    cases hL : isLeapYear (yearFromDays days 1970 days).1
    · rw [hL] at *; have := hmb.2.2; omega
    · rw [hL] at *; have := hmb.1.2; omega
  simp only [dateString]
  exact dateString_shape_gen _ _ _ hy hm hd

/-- The rendered time matches `HH:MM:SS` for every second-of-day. -/
lemma timeString_shape (sod : Nat) (h : sod < 86400) :
    shapeOk ("NN:NN:NN".data) (timeString sod).data = true := by
  have ha : sod / 3600 < 100 := by
    have : sod / 3600 < 24 := by
      rw [Nat.div_lt_iff_lt_mul (by norm_num : 0 < 3600)]
      omega
    omega
  have hb : sod / 60 % 60 < 100 := by
    have := Nat.mod_lt (sod / 60) (by norm_num : 0 < 60)
    omega
  have hc : sod % 60 < 100 := by
    have := Nat.mod_lt sod (by norm_num : 0 < 60)
    omega
  simp only [timeString]
  exact timeString_shape_gen _ _ _ ha hb hc

/-- Assembling a well-shaped date and time with no fractional part matches
the plain shape. -/
lemma shapeOk_plain_assembly (d t : String)
    (hd : shapeOk ("NNNN-NN-NN".data) d.data = true)
    (ht : shapeOk ("NN:NN:NN".data) t.data = true) :
    matchesShape isoPlainShape (d ++ "T" ++ t ++ "" ++ "Z") = true := by
  unfold matchesShape
  rw [String.data_append, String.data_append, String.data_append,
    String.data_append]
  have e : (isoPlainShape.data) =
      ((("NNNN-NN-NN".data ++ "T".data) ++ "NN:NN:NN".data) ++ "".data) ++
        "Z".data := by decide
  rw [e]
  exact shapeOk_append (shapeOk_append (shapeOk_append (shapeOk_append
    hd (by decide)) ht) (by decide)) (by decide)

/-- Assembling a well-shaped date and time with a six-digit fractional
part matches the microsecond shape. -/
lemma shapeOk_micro_assembly (d t : String) (u : Nat) (hu : u < 1000000)
    (hd : shapeOk ("NNNN-NN-NN".data) d.data = true)
    (ht : shapeOk ("NN:NN:NN".data) t.data = true) :
    matchesShape isoMicroShape (d ++ "T" ++ t ++ ("." ++ padNum 6 u) ++ "Z") =
      true := by
  unfold matchesShape
  rw [String.data_append, String.data_append, String.data_append,
    String.data_append, String.data_append]
  have e : (isoMicroShape.data) =
      ((("NNNN-NN-NN".data ++ "T".data) ++ "NN:NN:NN".data) ++
        (".".data ++ List.replicate 6 'N')) ++ "Z".data := by decide
  rw [e]
  refine shapeOk_append (shapeOk_append (shapeOk_append (shapeOk_append
    hd (by decide)) ht) (shapeOk_append (by decide) ?_)) (by decide)
  exact shapeOk_digit_run 6 _
    (padNum_length 6 _ (by norm_num; omega)) (padNum_isDigit 6 _)

/-- For every timestamp below 2^63 nanoseconds (the range of the sources
of these timestamps, and comfortably within `datetime`'s supported years),
`_format_timestamp` produces `YYYY-MM-DDTHH:MM:SS.ssssssZ` when the
microsecond component is nonzero and `YYYY-MM-DDTHH:MM:SSZ` when it is
zero. -/
lemma formatTimestamp_shape (ns : Nat) (h : ns < 2 ^ 63) :
    tsFormatOk ns (formatTimestamp ns) = true := by
  have h63 : (2:Nat) ^ 63 = 9223372036854775808 := by norm_num
  have hmic : nsToMicros ns ≤ 9223372036854776 := by
    have h1 : ns + 500 ≤ 9223372036854776307 := by omega
    calc nsToMicros ns = (ns + 500) / 1000 := rfl
      _ ≤ 9223372036854776307 / 1000 := Nat.div_le_div_right h1
      _ = 9223372036854776 := by norm_num
  have hsec : nsToMicros ns / 1000000 ≤ 9223372036 := by
    calc nsToMicros ns / 1000000 ≤ 9223372036854776 / 1000000 :=
        Nat.div_le_div_right hmic
      _ = 9223372036 := by norm_num
  have hdays : nsToMicros ns / 1000000 / 86400 ≤ 106751 := by
    calc nsToMicros ns / 1000000 / 86400 ≤ 9223372036 / 86400 :=
        Nat.div_le_div_right hsec
      _ = 106751 := by norm_num
  have hsod : nsToMicros ns / 1000000 % 86400 < 86400 :=
    Nat.mod_lt _ (by norm_num)
  have husec : nsToMicros ns % 1000000 < 1000000 :=
    Nat.mod_lt _ (by norm_num)
  have hdate := dateString_shape _ hdays
  have htime := timeString_shape _ hsod
  by_cases hu : nsToMicros ns % 1000000 = 0
  · unfold tsFormatOk
    rw [if_pos hu]
    have hf : formatTimestamp ns =
        dateString (nsToMicros ns / 1000000 / 86400) ++ "T" ++
          timeString (nsToMicros ns / 1000000 % 86400) ++ "" ++ "Z" := by
      simp only [formatTimestamp, hu, reduceIte]
    rw [hf]
    exact shapeOk_plain_assembly _ _ hdate htime
  · unfold tsFormatOk
    rw [if_neg hu]
    have hf : formatTimestamp ns =
        dateString (nsToMicros ns / 1000000 / 86400) ++ "T" ++
          timeString (nsToMicros ns / 1000000 % 86400) ++
          ("." ++ padNum 6 (nsToMicros ns % 1000000)) ++ "Z" := by
      simp only [formatTimestamp, if_neg hu]
    rw [hf]
    exact shapeOk_micro_assembly _ _ _ husec hdate htime

/-- Counterexample to C8 as stated.  The claim asserts every serialized
span's `start_time`/`end_time` match `YYYY-MM-DDTHH:MM:SS.ssssssZ`, but
Python's `isoformat()` omits the fractional part when the microsecond
component is zero: a span starting exactly at a whole second (here the
epoch, 0 ns) is serialized with `start_time = "1970-01-01T00:00:00Z"`,
which does not match the claimed 27-character shape. -/
theorem export_timestamp_format_counterexample :
    (serializeSpan
          { name := "root", trace_id := 1, span_id := 1,
            parent_span_id := none, start_time := 0, end_time := 0,
            attributes := [], events := [], status := StatusCode.UNSET,
            status_description := none, kind := SpanKind.INTERNAL,
            resource := none, scope := none }).start_time =
        "1970-01-01T00:00:00Z" ∧
      matchesShape isoMicroShape
        (serializeSpan
          { name := "root", trace_id := 1, span_id := 1,
            parent_span_id := none, start_time := 0, end_time := 0,
            attributes := [], events := [], status := StatusCode.UNSET,
            status_description := none, kind := SpanKind.INTERNAL,
            resource := none, scope := none }).start_time = false :=
  ⟨by decide, by decide⟩

/-- C8 (amended).  For every span with a 128-bit trace id, 64-bit span and
parent ids, `end_time ≥ start_time` and timestamps below 2^63 ns, the
serialized record has `trace_id` as exactly 32 lowercase hex characters,
`span_id` as exactly 16 lowercase hex characters, `parent_id` as 16
lowercase hex characters or null, `duration_ns` exactly equal to
`end_time - start_time` (and nonnegative), and `start_time`/`end_time`
formatted as ISO-8601 UTC `YYYY-MM-DDTHH:MM:SS.ssssssZ` when the
timestamp's microsecond component is nonzero — and as
`YYYY-MM-DDTHH:MM:SSZ`, without the fractional part, when it is zero. -/
theorem export_record_fields (sd : SpanData)
    (h1 : sd.trace_id < 2 ^ 128) (h2 : sd.span_id < 2 ^ 64)
    (h3 : ∀ p, sd.parent_span_id = some p → p < 2 ^ 64)
    (h4 : sd.start_time ≤ sd.end_time) (h5 : sd.end_time < 2 ^ 63) :
    ((serializeSpan sd).trace_id.length = 32 ∧
        ∀ c ∈ (serializeSpan sd).trace_id.data, isLowerHexDigit c = true) ∧
      ((serializeSpan sd).span_id.length = 16 ∧
        ∀ c ∈ (serializeSpan sd).span_id.data, isLowerHexDigit c = true) ∧
      ((serializeSpan sd).parent_id = none ↔ sd.parent_span_id = none) ∧
      (∀ s, (serializeSpan sd).parent_id = some s →
        s.length = 16 ∧ ∀ c ∈ s.data, isLowerHexDigit c = true) ∧
      (serializeSpan sd).duration_ns =
        (sd.end_time : Int) - (sd.start_time : Int) ∧
      0 ≤ (serializeSpan sd).duration_ns ∧
      tsFormatOk sd.start_time (serializeSpan sd).start_time = true ∧
      tsFormatOk sd.end_time (serializeSpan sd).end_time = true := by
  have h16_32 : (16:Nat) ^ 32 = 2 ^ 128 := by norm_num
  have h16_16 : (16:Nat) ^ 16 = 2 ^ 64 := by norm_num
  refine ⟨⟨?_, padHex_isLowerHex 32 sd.trace_id⟩,
    ⟨?_, padHex_isLowerHex 16 sd.span_id⟩, ?_, ?_, rfl, ?_, ?_, ?_⟩
  · exact padHex_length 32 sd.trace_id (by omega)
  · exact padHex_length 16 sd.span_id (by omega)
  · show sd.parent_span_id.map (padHex 16) = none ↔ sd.parent_span_id = none
    cases sd.parent_span_id <;> simp
  · intro s hs
    show s.length = 16 ∧ ∀ c ∈ s.data, isLowerHexDigit c = true
    cases hp : sd.parent_span_id with
    | none =>
      rw [show (serializeSpan sd).parent_id = sd.parent_span_id.map (padHex 16)
        from rfl, hp] at hs
      simp at hs
    | some p =>
      rw [show (serializeSpan sd).parent_id = sd.parent_span_id.map (padHex 16)
        from rfl, hp] at hs
      obtain rfl : padHex 16 p = s := Option.some.inj hs
      exact ⟨padHex_length 16 p (by have := h3 p hp; omega),
        padHex_isLowerHex 16 p⟩
  · show 0 ≤ (sd.end_time : Int) - (sd.start_time : Int)
    omega
  · exact formatTimestamp_shape sd.start_time (by omega)
  · exact formatTimestamp_shape sd.end_time h5

/-- Witness for C8 (amended) at a concrete span (trace id 11, span id 7,
parent 5, start 1 ms after the epoch, end 3 ms after the epoch — both
timestamps with a nonzero microsecond component). -/
theorem export_record_fields_witness :
    ((serializeSpan
          { name := "s", trace_id := 11, span_id := 7,
            parent_span_id := some 5, start_time := 1000000,
            end_time := 3000000, attributes := [], events := [],
            status := StatusCode.OK, status_description := none,
            kind := SpanKind.CONSUMER, resource := none,
            scope := none }).trace_id.length = 32 ∧
        ∀ c ∈ (serializeSpan
          { name := "s", trace_id := 11, span_id := 7,
            parent_span_id := some 5, start_time := 1000000,
            end_time := 3000000, attributes := [], events := [],
            status := StatusCode.OK, status_description := none,
            kind := SpanKind.CONSUMER, resource := none,
            scope := none }).trace_id.data, isLowerHexDigit c = true) ∧
      ((serializeSpan
          { name := "s", trace_id := 11, span_id := 7,
            parent_span_id := some 5, start_time := 1000000,
            end_time := 3000000, attributes := [], events := [],
            status := StatusCode.OK, status_description := none,
            kind := SpanKind.CONSUMER, resource := none,
            scope := none }).span_id.length = 16 ∧
        ∀ c ∈ (serializeSpan
          { name := "s", trace_id := 11, span_id := 7,
            parent_span_id := some 5, start_time := 1000000,
            end_time := 3000000, attributes := [], events := [],
            status := StatusCode.OK, status_description := none,
            kind := SpanKind.CONSUMER, resource := none,
            scope := none }).span_id.data, isLowerHexDigit c = true) ∧
      ((serializeSpan
          { name := "s", trace_id := 11, span_id := 7,
            parent_span_id := some 5, start_time := 1000000,
            end_time := 3000000, attributes := [], events := [],
            status := StatusCode.OK, status_description := none,
            kind := SpanKind.CONSUMER, resource := none,
            scope := none }).parent_id = none ↔
        ({ name := "s", trace_id := 11, span_id := 7,
            parent_span_id := some 5, start_time := 1000000,
            end_time := 3000000, attributes := [], events := [],
            status := StatusCode.OK, status_description := none,
            kind := SpanKind.CONSUMER, resource := none,
            scope := none } : SpanData).parent_span_id = none) ∧
      (∀ s, (serializeSpan
          { name := "s", trace_id := 11, span_id := 7,
            parent_span_id := some 5, start_time := 1000000,
            end_time := 3000000, attributes := [], events := [],
            status := StatusCode.OK, status_description := none,
            kind := SpanKind.CONSUMER, resource := none,
            scope := none }).parent_id = some s →
        s.length = 16 ∧ ∀ c ∈ s.data, isLowerHexDigit c = true) ∧
      (serializeSpan
          { name := "s", trace_id := 11, span_id := 7,
            parent_span_id := some 5, start_time := 1000000,
            end_time := 3000000, attributes := [], events := [],
            status := StatusCode.OK, status_description := none,
            kind := SpanKind.CONSUMER, resource := none,
            scope := none }).duration_ns = ((3000000 : Nat) : Int) -
        ((1000000 : Nat) : Int) ∧
      0 ≤ (serializeSpan
          { name := "s", trace_id := 11, span_id := 7,
            parent_span_id := some 5, start_time := 1000000,
            end_time := 3000000, attributes := [], events := [],
            status := StatusCode.OK, status_description := none,
            kind := SpanKind.CONSUMER, resource := none,
            scope := none }).duration_ns ∧
      tsFormatOk 1000000 (serializeSpan
          { name := "s", trace_id := 11, span_id := 7,
            parent_span_id := some 5, start_time := 1000000,
            end_time := 3000000, attributes := [], events := [],
            status := StatusCode.OK, status_description := none,
            kind := SpanKind.CONSUMER, resource := none,
            scope := none }).start_time = true ∧
      tsFormatOk 3000000 (serializeSpan
          { name := "s", trace_id := 11, span_id := 7,
            parent_span_id := some 5, start_time := 1000000,
            end_time := 3000000, attributes := [], events := [],
            status := StatusCode.OK, status_description := none,
            kind := SpanKind.CONSUMER, resource := none,
            scope := none }).end_time = true :=
  export_record_fields
    { name := "s", trace_id := 11, span_id := 7, parent_span_id := some 5,
      start_time := 1000000, end_time := 3000000, attributes := [],
      events := [], status := StatusCode.OK, status_description := none,
      kind := SpanKind.CONSUMER, resource := none, scope := none }
    (by norm_num) (by norm_num)
    (by intro p hp; injection hp with h; subst h; norm_num)
    (by norm_num) (by norm_num)

end Telemetry
